import Mathlib

/-!
# Verification of `StreamConnection` (src/realtime/sse.ts)

Shallow embedding of the reconnecting SSE subscription class
`StreamConnection`.  The class is event-driven: all its work happens in
reaction to transport callbacks (`onopen`, `onerror`, named frames), a
single pending reconnection timer, and method calls (`close`, `on`,
`setMaxReconnectAttempts`, `setReconnectDelay`).  We model it as a step
function on an explicit state record, driven by a list of environment
inputs; each step returns the successor state together with the list of
`emit` calls it performs, in order.

Platform pieces used by the source are modelled minimally:
* the WHATWG `URL` object, as the pair of a base string and a list of
  search parameters (`ModelURL`), with `searchParams.append` and
  `toString`;
* the `EventSource` transport: its `url`, its numeric `readyState`
  (0 = CONNECTING, 1 = OPEN, 2 = CLOSED), and the fact that
  `addEventListener` accumulates handlers — the state tracks, in
  `handlers`, how many times `setupListeners` has been applied to the
  current transport, and a delivered frame runs the per-category handler
  body that many times;
* `JSON.parse` inside `try`/`catch`, as an arbitrary function
  `String → Except String String` (error description or parsed value);
* Node's `EventEmitter`: the registered listeners are kept in the state
  (`listeners`, category/id pairs in registration order) and `dispatch`
  maps an `emit` call to the invocations of matching listeners.
-/

namespace QuicksilverSSE

/-- The WHATWG URL object as used by the source: a base plus a list of
search parameters. -/
structure ModelURL where
  base : String
  params : List (String × String)
deriving DecidableEq, Repr

/-- `url.searchParams.append(k, v)`. -/
def ModelURL.searchAppend (u : ModelURL) (k v : String) : ModelURL :=
  { u with params := u.params ++ [(k, v)] }

/-- `url.toString()`. -/
def ModelURL.render (u : ModelURL) : String :=
  match u.params with
  | [] => u.base
  | ps => u.base ++ "?" ++ String.intercalate "&"
      (ps.map (fun p => p.1 ++ "=" ++ p.2))

/-- A call to `this.emit(category, payload)` performed by the class. -/
inductive Emitted where
  | openEv
  | transportError
  | errorMsg (msg : String)
  | closeEv
  | streamEvent (data : String)
  | batchCreated (data : String)
  | messageJson (data : String)
  | messageRaw (data : String)
deriving DecidableEq, Repr

/-- The `EventEmitter` category name each `emit` call uses. -/
def Emitted.category : Emitted → String
  | .openEv => "open"
  | .transportError => "error"
  | .errorMsg _ => "error"
  | .closeEv => "close"
  | .streamEvent _ => "stream_event"
  | .batchCreated _ => "batch_created"
  | .messageJson _ => "message"
  | .messageRaw _ => "message"

/-- The mutable state of one `StreamConnection` instance, together with
the observable state of its current `EventSource` transport. -/
structure ConnState where
  /-- `this.eventSource.url` -/
  esUrl : String
  /-- `this.eventSource.readyState` (0 CONNECTING, 1 OPEN, 2 CLOSED) -/
  esReadyState : Nat
  /-- how many times `setupListeners` was applied to the current
  transport (each application adds one `addEventListener` handler per
  named category) -/
  handlers : Nat
  /-- `this.reconnectAttempts` -/
  reconnectAttempts : Nat
  /-- `this.maxReconnectAttempts` -/
  maxReconnectAttempts : Nat
  /-- `this.reconnectDelay` -/
  reconnectDelay : Nat
  /-- `this.isReconnecting` -/
  isReconnecting : Bool
  /-- the delay (ms) passed to `setTimeout` for the most recently
  scheduled reconnection timer -/
  timerDelay : Nat
  /-- how many `EventSource` transports have been constructed so far -/
  esGen : Nat
  /-- the `EventEmitter` registry: (category, listener id) in
  registration order -/
  listeners : List (String × Nat)
deriving DecidableEq, Repr

/-- The model of `JSON.parse` under `try`/`catch`. -/
abbrev Parse := String → Except String String

/-- `this.setupListeners()`: installs `onopen`/`onerror` (assignment)
and one `addEventListener` handler per named category on the current
transport. -/
def setupListeners (s : ConnState) : ConnState :=
  { s with handlers := s.handlers + 1 }

/-- The constructor: appends `api_key` when an apiKey is passed and is
truthy (a JS empty string is falsy), constructs the first `EventSource`
and runs `setupListeners`. -/
def init (url : ModelURL) (apiKey : Option String) : ConnState :=
  let u := match apiKey with
    | some k => if k = "" then url else url.searchAppend "api_key" k
    | none => url
  setupListeners
    { esUrl := u.render
      esReadyState := 0
      handlers := 0
      reconnectAttempts := 0
      maxReconnectAttempts := 5
      reconnectDelay := 1000
      isReconnecting := false
      timerDelay := 0
      esGen := 1
      listeners := [] }

/-- `this.handleReconnection()`.  When the budget is exhausted it emits
the terminal error and returns; otherwise it sets the in-flight flag,
increments the counter, schedules the timer at the current delay, and
doubles the delay (capped at 30000 ms). -/
def handleReconnection (s : ConnState) : ConnState × List Emitted :=
  if s.reconnectAttempts ≥ s.maxReconnectAttempts then
    (s, [Emitted.errorMsg "Max reconnection attempts reached"])
  else
    ({ s with
        isReconnecting := true
        reconnectAttempts := s.reconnectAttempts + 1
        timerDelay := s.reconnectDelay
        reconnectDelay := min (s.reconnectDelay * 2) 30000 }, [])

/-- Environment inputs that drive one `StreamConnection`. -/
inductive Input where
  /-- the transport fires its open callback -/
  | onOpen
  /-- the transport fires its error callback; `ready` is the transport's
  `readyState` at that moment -/
  | onError (ready : Nat)
  /-- a frame arrives on the `stream_event` category -/
  | frameStream (data : String)
  /-- a frame arrives on the `batch_created` category -/
  | frameBatch (data : String)
  /-- a frame arrives on the unlabelled `message` category -/
  | frameMessage (data : String)
  /-- the pending reconnection timer fires -/
  | timerFire
  /-- the caller invokes `close()` -/
  | callClose
  /-- the caller invokes `on(category, listener)` -/
  | callOn (category : String) (lid : Nat)
  /-- the caller invokes `setMaxReconnectAttempts(n)` -/
  | callSetMaxReconnectAttempts (n : Nat)
  /-- the caller invokes `setReconnectDelay(n)` -/
  | callSetReconnectDelay (n : Nat)
deriving DecidableEq, Repr

/-- One reaction of the class to one input: successor state and the
`emit` calls performed, in order. -/
def step (parse : Parse) (s : ConnState) : Input → ConnState × List Emitted
  | .onOpen =>
      ({ s with
          esReadyState := 1
          reconnectAttempts := 0
          reconnectDelay := 1000 }, [Emitted.openEv])
  | .onError ready =>
      let s1 := { s with esReadyState := ready }
      if ready = 2 ∧ s1.isReconnecting = false then
        let r := handleReconnection s1
        (r.1, Emitted.transportError :: r.2)
      else
        (s1, [Emitted.transportError])
  | .frameStream d =>
      (s, List.replicate s.handlers (match parse d with
        | .ok j => Emitted.streamEvent j
        | .error e => Emitted.errorMsg ("Failed to parse stream_event: " ++ e)))
  | .frameBatch d =>
      (s, List.replicate s.handlers (match parse d with
        | .ok j => Emitted.batchCreated j
        | .error e => Emitted.errorMsg ("Failed to parse batch_created: " ++ e)))
  | .frameMessage d =>
      (s, List.replicate s.handlers (match parse d with
        | .ok j => Emitted.messageJson j
        | .error _ => Emitted.messageRaw d))
  | .timerFire =>
      if s.isReconnecting then
        (setupListeners
          { s with
              esReadyState := 0
              handlers := 0
              esGen := s.esGen + 1
              isReconnecting := false }, [])
      else
        (s, [])
  | .callClose =>
      ({ s with esReadyState := 2 }, [Emitted.closeEv])
  | .callOn c i =>
      ({ s with listeners := s.listeners ++ [(c, i)] }, [])
  | .callSetMaxReconnectAttempts n =>
      ({ s with maxReconnectAttempts := n }, [])
  | .callSetReconnectDelay n =>
      ({ s with reconnectDelay := n }, [])

/-- Run a whole input trace, collecting all `emit` calls in order. -/
def run (parse : Parse) (s : ConnState) : List Input → ConnState × List Emitted
  | [] => (s, [])
  | i :: is =>
      let r := step parse s i
      let t := run parse r.1 is
      (t.1, r.2 ++ t.2)

/-- `EventEmitter` dispatch: each `emit` call invokes every registered
listener of the matching category, in registration order. -/
def dispatch (regs : List (String × Nat)) (out : List Emitted) :
    List (Nat × Emitted) :=
  out.flatMap fun e => (regs.filter (fun p => p.1 = e.category)).map
    (fun p => (p.2, e))

/-- Run a trace, collecting the listener invocations (listener id,
payload) each `emit` call produces under the registry current at that
moment. -/
def runInv (parse : Parse) (s : ConnState) :
    List Input → ConnState × List (Nat × Emitted)
  | [] => (s, [])
  | i :: is =>
      let r := step parse s i
      let t := runInv parse r.1 is
      (t.1, dispatch s.listeners r.2 ++ t.2)

/-- The `url` getter: `this.eventSource.url`. -/
def ConnState.url (s : ConnState) : String := s.esUrl

/-- The `readyState` getter: `this.eventSource.readyState`. -/
def ConnState.ready (s : ConnState) : Nat := s.esReadyState

/-- A fixed parse function for concrete runs where no frame arrives. -/
def parse0 : Parse := fun s => Except.ok s

/-- A fixed concrete subscription URL for concrete runs. -/
def u0 : ModelURL := { base := "https://api.example.com/sse/streams/s1", params := [] }

/-- `k` rounds of a definitive-closure transport error (readyState 2)
followed by the pending reconnection timer firing. -/
def cyc : Nat → List Input
  | 0 => []
  | n + 1 => cyc n ++ [Input.onError 2, Input.timerFire]

/-- C1: the claim demands that after `close()` no subsequent transport is
opened, even when a reconnection timer is pending.  The code has no
closed flag: a definitive-closure error schedules the timer, `close()`
emits the single `close` event, and the timer callback then
unconditionally constructs a second `EventSource` — `esGen` rises from
1 to 2 after the `close()` call. -/
theorem C1_pending_timer_reopens_after_close :
    (run parse0 (init u0 none) [Input.onError 2, Input.callClose]).1.esGen = 1 ∧
    (run parse0 (init u0 none)
        [Input.onError 2, Input.callClose, Input.timerFire]).1.esGen = 2 ∧
    (run parse0 (init u0 none)
        [Input.onError 2, Input.callClose, Input.timerFire]).2 =
      [Emitted.transportError, Emitted.closeEv] :=
  ⟨rfl, rfl, rfl⟩

/-- C10: every `close()` call emits one `close` event, with no guard
against the subscription being already closed: two consecutive `close()`
calls emit two `close` events. -/
theorem C10_every_close_emits (parse : Parse) (s : ConnState) :
    step parse s Input.callClose = ({ s with esReadyState := 2 }, [Emitted.closeEv]) ∧
    (run parse s [Input.callClose, Input.callClose]).2 =
      [Emitted.closeEv, Emitted.closeEv] :=
  ⟨rfl, rfl⟩

/-- C3 (counterexample): configure the floor to 500 ms via
`setReconnectDelay(500)`, then let the transport open: the delay is reset
to the hard-coded 1000 ms, not to the configured 500 ms floor. -/
theorem C3_open_ignores_configured_floor :
    (run parse0 (init u0 none)
        [Input.callSetReconnectDelay 500, Input.onOpen]).1.reconnectDelay = 1000 ∧
    (1000 : Nat) ≠ 500 :=
  ⟨rfl, by decide⟩

/-- C3 (amended): immediately after every successful open notification
the attempt counter is 0 and the delay is the hard-coded 1000 ms default,
regardless of any `setReconnectDelay` call. -/
theorem C3_open_resets_counter_and_delay (parse : Parse) (s : ConnState) :
    (step parse s Input.onOpen).1.reconnectAttempts = 0 ∧
    (step parse s Input.onOpen).1.reconnectDelay = 1000 ∧
    (step parse s Input.onOpen).2 = [Emitted.openEv] :=
  ⟨rfl, rfl, rfl⟩

/-- C7: a transport error whose ready-state is not definitively closed
(readyState ≠ 2) is surfaced on the local `error` channel but changes
nothing else: no reconnection is initiated (state unchanged up to the
recorded ready-state). -/
theorem C7_transient_error_no_reconnection (parse : Parse) (s : ConnState)
    (r : Nat) (h : r ≠ 2) :
    step parse s (Input.onError r) =
      ({ s with esReadyState := r }, [Emitted.transportError]) := by
  simp only [step]
  rw [if_neg]
  exact fun hc => h hc.1

/-- C7 witness: a transient error with readyState 1 on the freshly
constructed connection. -/
theorem C7_transient_error_no_reconnection_witness :
    step parse0 (init u0 none) (Input.onError 1) =
      ({ init u0 none with esReadyState := 1 }, [Emitted.transportError]) :=
  C7_transient_error_no_reconnection parse0 (init u0 none) 1 (by decide)

/-- C6: a frame on a named category (`stream_event` or `batch_created`)
whose payload fails JSON parsing emits exactly one local `error` event
naming the category and the parse failure, emits nothing under the
category's own name, and leaves the state untouched. -/
theorem C6_parse_failure_reported (parse : Parse) (s : ConnState) (d e : String)
    (hh : s.handlers = 1) (h : parse d = Except.error e) :
    step parse s (Input.frameStream d) =
      (s, [Emitted.errorMsg ("Failed to parse stream_event: " ++ e)]) ∧
    step parse s (Input.frameBatch d) =
      (s, [Emitted.errorMsg ("Failed to parse batch_created: " ++ e)]) := by
  constructor <;> simp [step, h, hh]

/-- C6 witness: a parse function rejecting everything, a concrete frame
on the fresh connection. -/
theorem C6_parse_failure_reported_witness :
    step (fun _ => Except.error "bad") (init u0 none) (Input.frameStream "x") =
      (init u0 none, [Emitted.errorMsg ("Failed to parse stream_event: " ++ "bad")]) :=
  (C6_parse_failure_reported (fun _ => Except.error "bad") (init u0 none)
    "x" "bad" rfl rfl).1

/-- C8: a frame on the unlabelled `message` category emits the parsed
object when JSON parsing succeeds and falls back to emitting the raw
text when it fails; in neither case is any `error` event produced. -/
theorem C8_message_degrades_to_raw (parse : Parse) (s : ConnState)
    (d j e : String) (hh : s.handlers = 1) :
    (parse d = Except.ok j →
      step parse s (Input.frameMessage d) = (s, [Emitted.messageJson j])) ∧
    (parse d = Except.error e →
      step parse s (Input.frameMessage d) = (s, [Emitted.messageRaw d])) := by
  constructor <;> intro h <;> simp [step, h, hh]

/-- C8 witness: the parse-failure fall-back on a concrete frame. -/
theorem C8_message_degrades_to_raw_witness :
    step (fun _ => Except.error "bad") (init u0 none) (Input.frameMessage "m") =
      (init u0 none, [Emitted.messageRaw "m"]) :=
  (C8_message_degrades_to_raw (fun _ => Except.error "bad") (init u0 none)
    "m" "j" "bad" rfl).2 rfl

/-- C2 (counterexample): drive five full error/timer cycles (exhausting
the default budget of 5), then deliver two further definitive-closure
errors: the terminal "Max reconnection attempts reached" error is
emitted twice, not exactly once. -/
theorem C2_terminal_error_repeats :
    ((run parse0 (init u0 none)
        (cyc 5 ++ [Input.onError 2, Input.onError 2])).2.count
      (Emitted.errorMsg "Max reconnection attempts reached")) = 2 ∧
    (2 : Nat) ≠ 1 :=
  ⟨rfl, by decide⟩

/-- C2 (amended): while no reconnection is in flight, a
definitive-closure error with the attempt counter below the maximum
schedules a reconnection (in-flight flag set, counter incremented) and
emits only the transport error; once the counter has reached the
maximum, each further definitive-closure error emits the transport error
followed by one terminal "Max reconnection attempts reached" error and
schedules no timer (the state is unchanged apart from the recorded
ready-state), so the terminal error recurs once per such error rather
than exactly once overall. -/
theorem C2_budget_exhaustion (parse : Parse) (s : ConnState)
    (hrec : s.isReconnecting = false) :
    (s.maxReconnectAttempts ≤ s.reconnectAttempts →
      step parse s (Input.onError 2) =
        ({ s with esReadyState := 2 },
         [Emitted.transportError,
          Emitted.errorMsg "Max reconnection attempts reached"])) ∧
    (s.reconnectAttempts < s.maxReconnectAttempts →
      step parse s (Input.onError 2) =
        ({ s with
            esReadyState := 2
            isReconnecting := true
            reconnectAttempts := s.reconnectAttempts + 1
            timerDelay := s.reconnectDelay
            reconnectDelay := min (s.reconnectDelay * 2) 30000 },
         [Emitted.transportError])) := by
  constructor <;> intro h
  · simp [step, handleReconnection, hrec, h]
  · simp [step, handleReconnection, hrec, Nat.not_le.mpr h]

/-- C2 witness: a connection whose counter already equals the default
maximum of 5 emits the terminal error and stays timer-free. -/
theorem C2_budget_exhaustion_witness :
    step parse0 { init u0 none with reconnectAttempts := 5 } (Input.onError 2) =
      ({ init u0 none with reconnectAttempts := 5, esReadyState := 2 },
       [Emitted.transportError,
        Emitted.errorMsg "Max reconnection attempts reached"]) :=
  (C2_budget_exhaustion parse0 { init u0 none with reconnectAttempts := 5 }
    rfl).1 (by decide)

/-- Helper: the final state of a run over `l1 ++ l2` is the final state
of running `l2` from the final state of `l1`. -/
lemma run_append_fst (parse : Parse) (s : ConnState) (l1 l2 : List Input) :
    (run parse s (l1 ++ l2)).1 = (run parse (run parse s l1).1 l2).1 := by
  induction l1 generalizing s with
  | nil => simp [run]
  | cons i is ih => simp [run, ih]

/-- Helper: a definitive-closure error with budget remaining and no
reconnection in flight schedules the timer at the current delay and
doubles the delay (capped at 30000). -/
lemma step_closedError_schedules (parse : Parse) (s : ConnState)
    (hrec : s.isReconnecting = false)
    (hlt : s.reconnectAttempts < s.maxReconnectAttempts) :
    step parse s (Input.onError 2) =
      ({ s with
          esReadyState := 2
          isReconnecting := true
          reconnectAttempts := s.reconnectAttempts + 1
          timerDelay := s.reconnectDelay
          reconnectDelay := min (s.reconnectDelay * 2) 30000 },
       [Emitted.transportError]) := by
  simp [step, handleReconnection, hrec, Nat.not_le.mpr hlt]

/-- Helper: the pending timer firing replaces the transport (fresh
handlers, next generation) and clears the in-flight flag. -/
lemma step_timerFire_swaps (parse : Parse) (s : ConnState)
    (hrec : s.isReconnecting = true) :
    step parse s Input.timerFire =
      ({ s with
          esReadyState := 0
          handlers := 1
          esGen := s.esGen + 1
          isReconnecting := false }, []) := by
  simp [step, hrec, setupListeners]

/-- Helper: the doubling-with-cap recurrence in closed form. -/
lemma min_double_cap (k : Nat) :
    min (min (1000 * 2 ^ k) 30000 * 2) 30000 = min (1000 * 2 ^ (k + 1)) 30000 := by
  rw [pow_succ, ← mul_assoc]
  generalize 1000 * 2 ^ k = x
  omega

/-- Helper: state invariant along `k ≤ 5` error/timer cycles from a
freshly constructed connection: counter `k`, current delay
`min(1000·2^k, 30000)`, and (for `k ≥ 1`) the `k`-th timer scheduled at
`min(1000·2^(k-1), 30000)`. -/
lemma cyc_invariant (parse : Parse) (u : ModelURL) (key : Option String) :
    ∀ k, k ≤ 5 →
      (run parse (init u key) (cyc k)).1.isReconnecting = false ∧
      (run parse (init u key) (cyc k)).1.maxReconnectAttempts = 5 ∧
      (run parse (init u key) (cyc k)).1.reconnectAttempts = k ∧
      (run parse (init u key) (cyc k)).1.reconnectDelay =
        min (1000 * 2 ^ k) 30000 ∧
      (1 ≤ k → (run parse (init u key) (cyc k)).1.timerDelay =
        min (1000 * 2 ^ (k - 1)) 30000) := by
  intro k
  induction k with
  | zero =>
      intro _
      refine ⟨rfl, rfl, rfl, ?_, ?_⟩
      · show (1000 : Nat) = min (1000 * 2 ^ 0) 30000
        norm_num
      · omega
  | succ n ih =>
      intro hn
      obtain ⟨hrec, hmax, hatt, hdel, _⟩ := ih (by omega)
      have hstep := step_closedError_schedules parse
        (run parse (init u key) (cyc n)).1 hrec (by omega)
      rw [show cyc (n + 1) = cyc n ++ [Input.onError 2, Input.timerFire] from rfl,
        run_append_fst]
      simp only [run, hstep]
      rw [step_timerFire_swaps parse _ rfl]
      refine ⟨rfl, hmax, by simp [hatt], ?_, ?_⟩
      · simp [hdel, min_double_cap]
      · intro _
        simp [hdel]

/-- C4: with the default configuration (floor 1000 ms, ceiling 30000 ms,
budget 5) and no intervening open or setter call, the delay passed to
the reconnection timer for attempt k equals min(1000 * 2^(k-1), 30000);
only attempts 1..5 are ever scheduled without setter calls. -/
theorem C4_backoff_delay (u : ModelURL) (key : Option String) (parse : Parse)
    (k : Nat) (h1 : 1 ≤ k) (h2 : k ≤ 5) :
    (run parse (init u key) (cyc k)).1.timerDelay =
      min (1000 * 2 ^ (k - 1)) 30000 :=
  (cyc_invariant parse u key k h2).2.2.2.2 h1

/-- C4 witness: the third attempt is scheduled at 4000 ms. -/
theorem C4_backoff_delay_witness :
    (run parse0 (init u0 none) (cyc 3)).1.timerDelay =
      min (1000 * 2 ^ (3 - 1)) 30000 :=
  C4_backoff_delay u0 none parse0 3 (by decide) (by decide)

/-- C5: the `EventEmitter` registry is untouched by the error and
timer-fire transitions, and in the claimed scenario — a `stream_event`
listener registered, then a definitive-closure error, the reconnection
timer firing (replacing the transport and re-installing handlers), then
one valid `stream_event` frame — that listener is invoked exactly once,
with the parsed payload. -/
theorem C5_listeners_survive_reconnection (parse : Parse) (s : ConnState)
    (r : Nat) (u : ModelURL) (key : Option String) (d j : String) (i : Nat)
    (h : parse d = Except.ok j) :
    (step parse s (Input.onError r)).1.listeners = s.listeners ∧
    (step parse s Input.timerFire).1.listeners = s.listeners ∧
    (runInv parse (init u key)
        [Input.callOn "stream_event" i, Input.onError 2, Input.timerFire,
         Input.frameStream d]).2 = [(i, Emitted.streamEvent j)] := by
  refine ⟨?_, ?_, ?_⟩
  · simp only [step]
    split
    · unfold handleReconnection
      split <;> rfl
    · rfl
  · simp only [step]
    split <;> rfl
  · simp [runInv, step, dispatch, init, setupListeners, handleReconnection,
      Emitted.category, h]

/-- C5 witness: listener 7, a frame whose payload parses to itself. -/
theorem C5_listeners_survive_reconnection_witness :
    (runInv parse0 (init u0 none)
        [Input.callOn "stream_event" 7, Input.onError 2, Input.timerFire,
         Input.frameStream "x"]).2 = [(7, Emitted.streamEvent "x")] :=
  (C5_listeners_survive_reconnection parse0 (init u0 none) 2 u0 none
    "x" "x" 7 rfl).2.2

/-- C9 (counterexample): a JS empty string is falsy, so constructing
with the credential "" appends nothing: the URL is unchanged, against
the claim that every supplied credential string is appended. -/
theorem C9_empty_credential_not_appended :
    (init u0 (some "")).url = "https://api.example.com/sse/streams/s1" ∧
    (init u0 (some "")).url ≠
      "https://api.example.com/sse/streams/s1?api_key=" :=
  ⟨rfl, by decide⟩

/-- C9 (amended): a nonempty credential is appended to the subscription
URL as an `api_key` query parameter and the `url` accessor reflects it;
with no credential, or with the (falsy) empty-string credential, the URL
is unchanged. -/
theorem C9_api_key_appended (b k : String) (hk : k ≠ "") :
    (init { base := b, params := [] } (some k)).url =
      b ++ "?" ++ ("api_key=" ++ k) ∧
    (init { base := b, params := [] } none).url = b ∧
    (init { base := b, params := [] } (some "")).url = b := by
  refine ⟨?_, rfl, rfl⟩
  simp only [init, if_neg hk]
  rfl

/-- C9 witness: credential "k1" on the concrete subscription URL. -/
theorem C9_api_key_appended_witness :
    (init { base := "https://api.example.com/sse/streams/s1", params := [] }
        (some "k1")).url =
      "https://api.example.com/sse/streams/s1" ++ "?" ++ ("api_key=" ++ "k1") :=
  (C9_api_key_appended "https://api.example.com/sse/streams/s1" "k1"
    (by decide)).1

end QuicksilverSSE
